import Mathlib

/-!
Shallow embedding of the `delver` example scripts.

The repository contains two Python files:

* `src/hello.py` — a manual extraction path: `extract_text_with_bounding_boxes`
  opens a PDF with the external `fitz` library, iterates pages, and for each
  page walks the nested block/line/span dictionary returned by
  `page.get_text("dict")`, printing each span's text and bounding box; then it
  calls `doc.close()`.  The module's top level runs
  `print(extract_text_with_bounding_boxes("./tests/3M_2015_10K.pdf", 1))`.

* `src/examples/basic.py` — a templated extraction path: `main` calls the
  external `delver_pdf.process_pdf_file` on two hardcoded paths and prints the
  returned string; the `__main__` harness wraps `main` in a `cProfile`
  profiler, prints the statistics sorted by cumulative time (top 20) and dumps
  them to `profile_results.prof`.

The external libraries (`fitz`, `delver_pdf`, `cProfile`/`pstats`) are not
part of this repository; they are modelled as opaque environments.  Observable
behaviour (printed lines, profiler events, file writes, the paths passed to
the external calls, whether `doc.close()` ran, and the normal/exceptional
outcome) is recorded in explicit result records.
-/

set_option autoImplicit false

deriving instance DecidableEq for Except

/-- A Python exception escaping an external library call. -/
inductive PyError where
  | fileNotFound (path : String)
  | indexError
  | libraryError (msg : String)
deriving DecidableEq, Repr

/-- A Python value as far as these scripts observe one: `extract_text_with_bounding_boxes`
has no `return` statement, so it evaluates to `None`; `main` returns the string
from `process_pdf_file`. -/
inductive PyValue where
  | pyNone
  | pyString (s : String)
deriving DecidableEq, Repr

/-- The `str(...)` rendering used by `print`. -/
def pyStrOf : PyValue → String
  | PyValue.pyNone => "None"
  | PyValue.pyString s => s

/-- A four-coordinate rectangle, `span["bbox"]` in `src/hello.py`.  The scripts
never do arithmetic on the coordinates — they are only read and re-printed —
so they are modelled as opaque integer-indexed values. -/
structure BBox where
  x0 : Int
  y0 : Int
  x1 : Int
  y1 : Int
deriving DecidableEq, Repr

/-- One span of `text_dict["blocks"][_]["lines"][_]["spans"]`:
its `"text"` and `"bbox"` fields (src/hello.py lines 25-26). -/
structure Span where
  text : String
  bbox : BBox
deriving DecidableEq, Repr

/-- One line grouping, holding its `"spans"` list (src/hello.py line 24). -/
structure Line where
  spans : List Span
deriving DecidableEq, Repr

/-- One block grouping, holding its `"lines"` list (src/hello.py line 23). -/
structure Block where
  lines : List Line
deriving DecidableEq, Repr

/-- The dictionary returned by `page.get_text("dict")`: its `"blocks"` list
(src/hello.py lines 21-22). -/
structure TextDict where
  blocks : List Block
deriving DecidableEq, Repr

/-- One page of an open document; `get_text "dict"` projects its text dictionary. -/
structure PageData where
  textDict : TextDict
deriving DecidableEq, Repr

/-- An open `fitz` document: `len(doc)` is `pages.length` and `doc[i]` indexes
into `pages`. -/
structure Doc where
  pages : List PageData
deriving DecidableEq, Repr

/-- `page.get_text("dict")` (src/hello.py line 21). -/
def PageData.get_text (p : PageData) (_kind : String) : TextDict := p.textDict

/-- An observable event of a script run: a printed span line, an ordinary
printed line, profiler enable/disable, or a binary statistics file write. -/
inductive Event where
  | printSpan (text : String) (bbox : BBox)
  | printStr (s : String)
  | enableProfiler
  | disableProfiler
  | dumpStatsFile (name : String)
deriving DecidableEq, Repr

/-- The external `fitz` library as visible to `src/hello.py`: opening a path
either yields a document or raises (missing file, malformed PDF, ...). -/
structure FitzEnv where
  openPdf : String → Except PyError Doc

/-- The external `delver_pdf` library and the standard profiling machinery as
visible to `src/examples/basic.py`.  `process_pdf_file` takes a PDF path and a
template path and either returns a JSON string or raises.  `statsText sortKey n`
is the text `pstats` writes into the stream after `sort_stats(sortKey)` and
`print_stats(n)` — its content is opaque to this repository. -/
structure DelverEnv where
  process_pdf_file : String → String → Except PyError String
  statsText : String → Nat → String

/-- The event printed for one span (src/hello.py line 27):
`print(f"Text: {text}, Bounding Box: {bbox}")`. -/
def spanEvent (s : Span) : Event := Event.printSpan s.text s.bbox

/-- Events of the innermost loop `for span in line["spans"]` (src/hello.py lines 24-27). -/
def lineEvents (l : Line) : List Event := l.spans.map spanEvent

/-- Events of the loop `for line in block["lines"]` (src/hello.py line 23). -/
def blockEvents (b : Block) : List Event := b.lines.flatMap lineEvents

/-- Events of the loop `for block in text_dict["blocks"]` (src/hello.py line 22). -/
def textDictEvents (t : TextDict) : List Event := t.blocks.flatMap blockEvents

/-- Instrumented span step: reads `span["text"]` and `span["bbox"]`, prints,
and hands the span structure back so that any mutation would be observable
(src/hello.py lines 25-27 perform only reads). -/
def processSpanRW (s : Span) : List Event × Span :=
  ([Event.printSpan s.text s.bbox], s)

/-- Instrumented line step: processes each span and reassembles the line
structure from what the iteration hands back. -/
def processLineRW (l : Line) : List Event × Line :=
  let rs := l.spans.map processSpanRW
  (rs.flatMap Prod.fst, { spans := rs.map Prod.snd })

/-- Instrumented block step: processes each line and reassembles the block. -/
def processBlockRW (b : Block) : List Event × Block :=
  let rs := b.lines.map processLineRW
  (rs.flatMap Prod.fst, { lines := rs.map Prod.snd })

/-- Instrumented dictionary step: processes each block and reassembles the
dictionary, making the read-only consumption of src/hello.py lines 22-27
checkable. -/
def processTextDictRW (t : TextDict) : List Event × TextDict :=
  let rs := t.blocks.map processBlockRW
  (rs.flatMap Prod.fst, { blocks := rs.map Prod.snd })

/-- `my_range = range(len(doc)) if pages is None else range(pages)`
(src/hello.py line 18).  A Python `range` with a negative argument is empty,
matching `Int.toNat`. -/
def myRange (doc : Doc) (pages : Option Int) : List Nat :=
  match pages with
  | none => List.range doc.pages.length
  | some p => List.range p.toNat

/-- The events a single iteration of the page loop produces when index `i`
is in range (src/hello.py lines 20-27); out of range the loop raises first. -/
def pageEvents (doc : Doc) (i : Nat) : List Event :=
  match doc.pages[i]? with
  | some pd => textDictEvents (pd.get_text "dict")
  | none => []

/-- The page loop of src/hello.py lines 19-27: for each index, `doc[page_num]`
(raising `IndexError` when out of range), `page.get_text("dict")`, then the
nested span-printing loops. -/
def pageLoop (doc : Doc) : List Nat → List Event × Except PyError Unit
  | [] => ([], Except.ok ())
  | i :: rest =>
    match doc.pages[i]? with
    | none => ([], Except.error PyError.indexError)
    | some pd =>
      let evs := textDictEvents (pd.get_text "dict")
      let r := pageLoop doc rest
      (evs ++ r.1, r.2)

/-- Observable result of one call to `extract_text_with_bounding_boxes`:
the printed trace, the paths passed to `fitz.open`, whether `doc.close()`
executed, and the normal value or escaping exception. -/
structure ExtractResult where
  trace : List Event
  opens : List String
  closedDoc : Bool
  outcome : Except PyError PyValue
deriving DecidableEq, Repr

/-- `extract_text_with_bounding_boxes` (src/hello.py lines 16-28): open the
document, select the range, run the page loop, and close the document.  There
is no try/finally, so an exception in the loop skips `doc.close()`; with no
`return` statement the function evaluates to `None`. -/
def extract_text_with_bounding_boxes (fz : FitzEnv) (pdf_path : String)
    (pages : Option Int) : ExtractResult :=
  match fz.openPdf pdf_path with
  | Except.error e =>
    { trace := [], opens := [pdf_path], closedDoc := false, outcome := Except.error e }
  | Except.ok doc =>
    match pageLoop doc (myRange doc pages) with
    | (evs, Except.error e) =>
      { trace := evs, opens := [pdf_path], closedDoc := false, outcome := Except.error e }
    | (evs, Except.ok _) =>
      { trace := evs, opens := [pdf_path], closedDoc := true,
        outcome := Except.ok PyValue.pyNone }

/-- The module top level of src/hello.py (line 31):
`print(extract_text_with_bounding_boxes("./tests/3M_2015_10K.pdf", 1))`.
The script reads neither `sys.argv` nor `os.environ`; both are taken as
parameters only to state that they cannot influence the run. -/
def helloScript (fz : FitzEnv) (_argv : List String)
    (_osEnv : String → Option String) : ExtractResult :=
  let r := extract_text_with_bounding_boxes fz "./tests/3M_2015_10K.pdf" (some 1)
  match r.outcome with
  | Except.error _ => r
  | Except.ok v => { r with trace := r.trace ++ [Event.printStr (pyStrOf v)] }

namespace Basic

/-- Observable result of `main` in src/examples/basic.py: printed trace, the
`(pdf, template)` path pairs passed to `process_pdf_file`, and the returned
value or escaping exception. -/
structure MainResult where
  trace : List Event
  calls : List (String × String)
  ret : Except PyError String
deriving DecidableEq, Repr

/-- `main` (src/examples/basic.py lines 9-13): call `process_pdf_file` on the
two hardcoded paths, print the result, return it. -/
def main (dv : DelverEnv) : MainResult :=
  match dv.process_pdf_file "./tests/3M_2015_10K.pdf" "./tests/10k.tmpl" with
  | Except.error e =>
    { trace := [],
      calls := [("./tests/3M_2015_10K.pdf", "./tests/10k.tmpl")],
      ret := Except.error e }
  | Except.ok result =>
    { trace := [Event.printStr result],
      calls := [("./tests/3M_2015_10K.pdf", "./tests/10k.tmpl")],
      ret := Except.ok result }

/-- Modelled from the spec: the `cProfile` profiler (not part of this
repository) "is used here only to measure, not to influence, program
behavior", so `profiler.enable()` / `profiler.disable()` contribute only
measurement events to the trace and leave the wrapped computation untouched.
This is the profiled invocation of src/examples/basic.py lines 21-23:
`profiler.enable(); main(); profiler.disable()` — if `main` raises, the
exception propagates before `disable` runs. -/
def profiledMain (dv : DelverEnv) : MainResult :=
  let m := main dv
  match m.ret with
  | Except.error e =>
    { trace := Event.enableProfiler :: m.trace, calls := m.calls, ret := Except.error e }
  | Except.ok r =>
    { trace := Event.enableProfiler :: (m.trace ++ [Event.disableProfiler]),
      calls := m.calls, ret := Except.ok r }

/-- `true` exactly on the profiler measurement events. -/
def isProfilerEvent : Event → Bool
  | Event.enableProfiler => true
  | Event.disableProfiler => true
  | _ => false

/-- Drop the profiler measurement events, leaving the program's own output. -/
def eraseProfilerEvents (tr : List Event) : List Event :=
  tr.filter (fun e => !isProfilerEvent e)

/-- `"=" * 50` (src/examples/basic.py lines 34 and 36). -/
def sepLine : String := String.mk (List.replicate 50 (Char.ofNat 61))

/-- Observable result of running src/examples/basic.py as `__main__`. -/
structure ScriptResult where
  trace : List Event
  calls : List (String × String)
  outcome : Except PyError Unit
deriving DecidableEq, Repr

/-- The `__main__` harness of src/examples/basic.py (lines 16-42): enable the
profiler, run `main`, disable the profiler, build `pstats.Stats` over a string
stream, `sort_stats("cumulative")`, `print_stats(20)` into the stream, print
the banner and the captured statistics text, `dump_stats("profile_results.prof")`,
and print the two closing lines.  If `main` raises, everything after it is
skipped and the exception escapes.  The script reads neither `sys.argv` nor
`os.environ`. -/
def basicScript (dv : DelverEnv) (_argv : List String)
    (_osEnv : String → Option String) : ScriptResult :=
  let m := main dv
  match m.ret with
  | Except.error e =>
    { trace := Event.enableProfiler :: m.trace, calls := m.calls,
      outcome := Except.error e }
  | Except.ok _ =>
    { trace := Event.enableProfiler :: (m.trace ++
        [Event.disableProfiler,
         Event.printStr ("\n" ++ sepLine),
         Event.printStr "PROFILING RESULTS",
         Event.printStr sepLine,
         Event.printStr (dv.statsText "cumulative" 20),
         Event.dumpStatsFile "profile_results.prof",
         Event.printStr "\nDetailed profiling data saved to \x27profile_results.prof\x27",
         Event.printStr "You can analyze it with: python -m pstats profile_results.prof"]),
      calls := m.calls, outcome := Except.ok () }

end Basic

/-! ### Concrete fixtures used by witnesses and counterexamples -/

/-- A concrete span fixture. -/
def spanA : Span := { text := "Hello", bbox := { x0 := 0, y0 := 0, x1 := 10, y1 := 10 } }

/-- A second concrete span fixture. -/
def spanB : Span := { text := "World", bbox := { x0 := 0, y0 := 12, x1 := 9, y1 := 20 } }

/-- A concrete one-block page fixture. -/
def pageA : PageData :=
  { textDict := { blocks := [{ lines := [{ spans := [spanA] }] }] } }

/-- A second concrete page fixture. -/
def pageB : PageData :=
  { textDict := { blocks := [{ lines := [{ spans := [spanB] }] }] } }

/-- A concrete two-page document fixture. -/
def docA : Doc := { pages := [pageA, pageB] }

/-- A concrete `fitz` environment in which only the hardcoded test path opens. -/
def fzA : FitzEnv :=
  { openPdf := fun p =>
      if p = "./tests/3M_2015_10K.pdf" then Except.ok docA
      else Except.error (PyError.fileNotFound p) }

/-- A concrete `fitz` environment in which every open raises. -/
def fzFail : FitzEnv :=
  { openPdf := fun p => Except.error (PyError.fileNotFound p) }

/-- A concrete zero-page document fixture: opening it succeeds, but the
hardcoded `pages = 1` call then raises `IndexError` at `doc[0]` mid-loop. -/
def docEmpty : Doc := { pages := [] }

/-- A concrete `fitz` environment in which the hardcoded test path opens as
the zero-page document. -/
def fzEmpty : FitzEnv :=
  { openPdf := fun p =>
      if p = "./tests/3M_2015_10K.pdf" then Except.ok docEmpty
      else Except.error (PyError.fileNotFound p) }

/-- A concrete `delver_pdf` environment in which extraction succeeds. -/
def dvA : DelverEnv :=
  { process_pdf_file := fun _ _ => Except.ok "RESULT",
    statsText := fun _ _ => "STATS" }

/-- A concrete `delver_pdf` environment in which extraction raises. -/
def dvFail : DelverEnv :=
  { process_pdf_file := fun p _ => Except.error (PyError.fileNotFound p),
    statsText := fun _ _ => "STATS" }

/-! ### Helper lemmas -/

/-- All indices of `range n` are below `len` exactly when `n ≤ len`. -/
lemma range_all_lt_iff (n len : Nat) : (∀ i ∈ List.range n, i < len) ↔ n ≤ len := by
  constructor
  · intro h
    rcases Nat.eq_zero_or_pos n with h0 | h0
    · omega
    · have := h (n - 1) (List.mem_range.mpr (by omega))
      omega
  · intro h i hi
    have := List.mem_range.mp hi
    omega

/-- When every index is in range, the page loop prints each page's events in
order and finishes normally. -/
lemma pageLoop_valid (doc : Doc) (idxs : List Nat)
    (h : ∀ i ∈ idxs, i < doc.pages.length) :
    pageLoop doc idxs = (idxs.flatMap (pageEvents doc), Except.ok ()) := by
  induction idxs with
  | nil => rfl
  | cons i rest ih =>
    have hi : i < doc.pages.length := h i (by simp)
    have hrest : ∀ j ∈ rest, j < doc.pages.length := fun j hj => h j (by simp [hj])
    have hpd : doc.pages[i]? = some doc.pages[i] := List.getElem?_eq_getElem hi
    simp [pageLoop, hpd, ih hrest, pageEvents]

/-- When some index is out of range, the page loop raises `IndexError`. -/
lemma pageLoop_err (doc : Doc) (idxs : List Nat)
    (h : ¬ ∀ i ∈ idxs, i < doc.pages.length) :
    (pageLoop doc idxs).2 = Except.error PyError.indexError := by
  induction idxs with
  | nil => simp at h
  | cons i rest ih =>
    by_cases hi : i < doc.pages.length
    · have hpd : doc.pages[i]? = some doc.pages[i] := List.getElem?_eq_getElem hi
      have hrest : ¬ ∀ j ∈ rest, j < doc.pages.length := by
        intro hall
        exact h (by
          intro j hj
          rcases List.mem_cons.mp hj with hj | hj
          · exact hj ▸ hi
          · exact hall j hj)
      simp [pageLoop, hpd]
      exact ih hrest
    · have hpd : doc.pages[i]? = none := List.getElem?_eq_none (by omega)
      simp [pageLoop, hpd]

/-- The page loop finishes normally exactly when every index is in range. -/
lemma pageLoop_ok_iff (doc : Doc) (idxs : List Nat) :
    (pageLoop doc idxs).2 = Except.ok () ↔ ∀ i ∈ idxs, i < doc.pages.length := by
  constructor
  · intro h
    by_contra hc
    rw [pageLoop_err doc idxs hc] at h
    exact Except.noConfusion h
  · intro h
    rw [pageLoop_valid doc idxs h]

/-- Evaluation of `extract_text_with_bounding_boxes` when opening fails. -/
lemma extract_of_open_err (fz : FitzEnv) (path : String) (pages : Option Int)
    (e : PyError) (h : fz.openPdf path = Except.error e) :
    extract_text_with_bounding_boxes fz path pages =
      { trace := [], opens := [path], closedDoc := false, outcome := Except.error e } := by
  simp [extract_text_with_bounding_boxes, h]

/-- Evaluation of `extract_text_with_bounding_boxes` when opening succeeds and
every iterated index is in range. -/
lemma extract_of_valid (fz : FitzEnv) (path : String) (pages : Option Int)
    (doc : Doc) (hopen : fz.openPdf path = Except.ok doc)
    (hvalid : ∀ i ∈ myRange doc pages, i < doc.pages.length) :
    extract_text_with_bounding_boxes fz path pages =
      { trace := (myRange doc pages).flatMap (pageEvents doc), opens := [path],
        closedDoc := true, outcome := Except.ok PyValue.pyNone } := by
  simp [extract_text_with_bounding_boxes, hopen,
    pageLoop_valid doc (myRange doc pages) hvalid]

/-- Evaluation of `extract_text_with_bounding_boxes` when opening succeeds and
some iterated index is out of range: the loop raises before `doc.close()`. -/
lemma extract_of_invalid (fz : FitzEnv) (path : String) (pages : Option Int)
    (doc : Doc) (hopen : fz.openPdf path = Except.ok doc)
    (hbad : ¬ ∀ i ∈ myRange doc pages, i < doc.pages.length) :
    (extract_text_with_bounding_boxes fz path pages).outcome =
      Except.error PyError.indexError ∧
    (extract_text_with_bounding_boxes fz path pages).closedDoc = false := by
  have h2 := pageLoop_err doc (myRange doc pages) hbad
  rcases hpl : pageLoop doc (myRange doc pages) with ⟨evs, out⟩
  rw [hpl] at h2
  simp at h2
  subst h2
  simp [extract_text_with_bounding_boxes, hopen, hpl]

/-- `extract_text_with_bounding_boxes` always passes exactly its `pdf_path`
argument to `fitz.open`. -/
lemma extract_opens_eq (fz : FitzEnv) (path : String) (pages : Option Int) :
    (extract_text_with_bounding_boxes fz path pages).opens = [path] := by
  rcases ho : fz.openPdf path with e | doc
  · simp [extract_text_with_bounding_boxes, ho]
  · rcases hpl : pageLoop doc (myRange doc pages) with ⟨evs, e | u⟩ <;>
      simp [extract_text_with_bounding_boxes, ho, hpl]

/-- `doc.close()` runs exactly when the call finishes normally. -/
lemma extract_closed_iff_ok (fz : FitzEnv) (path : String) (pages : Option Int) :
    (extract_text_with_bounding_boxes fz path pages).closedDoc = true ↔
      (extract_text_with_bounding_boxes fz path pages).outcome =
        Except.ok PyValue.pyNone := by
  rcases ho : fz.openPdf path with e | doc
  · simp [extract_text_with_bounding_boxes, ho]
  · rcases hpl : pageLoop doc (myRange doc pages) with ⟨evs, e | u⟩ <;>
      simp [extract_text_with_bounding_boxes, ho, hpl]

/-- The instrumented span iteration prints exactly the span events and hands
every span back unchanged. -/
lemma mapRW_spans (xs : List Span) :
    (xs.map processSpanRW).flatMap Prod.fst = xs.map spanEvent ∧
    (xs.map processSpanRW).map Prod.snd = xs := by
  induction xs with
  | nil => exact ⟨rfl, rfl⟩
  | cons s rest ih => simp [processSpanRW, spanEvent, ih.1, ih.2]

/-- The instrumented line step prints the line's events and returns the line
unchanged. -/
lemma processLineRW_eq (l : Line) : processLineRW l = (lineEvents l, l) := by
  rcases l with ⟨spans⟩
  simp [processLineRW, lineEvents, (mapRW_spans spans).1, (mapRW_spans spans).2]

/-- The instrumented line iteration of a block prints the block's events and
hands every line back unchanged. -/
lemma mapRW_lines (xs : List Line) :
    (xs.map processLineRW).flatMap Prod.fst = xs.flatMap lineEvents ∧
    (xs.map processLineRW).map Prod.snd = xs := by
  induction xs with
  | nil => exact ⟨rfl, rfl⟩
  | cons l rest ih => simp [processLineRW_eq, ih.1, ih.2]

/-- The instrumented block step prints the block's events and returns the
block unchanged. -/
lemma processBlockRW_eq (b : Block) : processBlockRW b = (blockEvents b, b) := by
  rcases b with ⟨lines⟩
  simp [processBlockRW, blockEvents, (mapRW_lines lines).1, (mapRW_lines lines).2]

/-- The instrumented block iteration prints the dictionary's events and hands
every block back unchanged. -/
lemma mapRW_blocks (xs : List Block) :
    (xs.map processBlockRW).flatMap Prod.fst = xs.flatMap blockEvents ∧
    (xs.map processBlockRW).map Prod.snd = xs := by
  induction xs with
  | nil => exact ⟨rfl, rfl⟩
  | cons b rest ih => simp [processBlockRW_eq, ih.1, ih.2]

/-- Every event produced from a text dictionary is a span print. -/
lemma textDictEvents_mem (t : TextDict) (e : Event) (h : e ∈ textDictEvents t) :
    ∃ s bb, e = Event.printSpan s bb := by
  simp only [textDictEvents, blockEvents, lineEvents, List.mem_flatMap,
    List.mem_map, spanEvent] at h
  obtain ⟨b, -, l, -, s, -, rfl⟩ := h
  exact ⟨s.text, s.bbox, rfl⟩

/-- Every event produced from a page is a span print. -/
lemma pageEvents_mem (doc : Doc) (i : Nat) (e : Event) (h : e ∈ pageEvents doc i) :
    ∃ s bb, e = Event.printSpan s bb := by
  unfold pageEvents at h
  rcases hpd : doc.pages[i]? with _ | pd <;> rw [hpd] at h
  · simp at h
  · exact textDictEvents_mem _ _ h

/-- A normal return of `extract_text_with_bounding_boxes` is always `None`. -/
lemma extract_ok_val (fz : FitzEnv) (path : String) (pages : Option Int)
    (v : PyValue)
    (h : (extract_text_with_bounding_boxes fz path pages).outcome = Except.ok v) :
    v = PyValue.pyNone := by
  rcases ho : fz.openPdf path with e | doc
  · rw [extract_of_open_err fz path pages e ho] at h
    exact Except.noConfusion h
  · rcases hpl : pageLoop doc (myRange doc pages) with ⟨evs, e2 | u⟩ <;>
      simp [extract_text_with_bounding_boxes, ho, hpl] at h
    exact h.symm

/-- When the hardcoded extraction call finishes normally, the top level of
src/hello.py prints `None` after the per-span lines. -/
lemma helloScript_trace_of_ok (fz : FitzEnv) (argv : List String)
    (osEnv : String → Option String) (v : PyValue)
    (h : (extract_text_with_bounding_boxes fz "./tests/3M_2015_10K.pdf"
        (some 1)).outcome = Except.ok v) :
    (helloScript fz argv osEnv).trace =
      (extract_text_with_bounding_boxes fz "./tests/3M_2015_10K.pdf"
        (some 1)).trace ++ [Event.printStr "None"] := by
  have hv : v = PyValue.pyNone := extract_ok_val _ _ _ _ h
  subst hv
  simp [helloScript, h, pyStrOf]

/-- `main` always records exactly the hardcoded path pair. -/
lemma main_calls (dv : DelverEnv) :
    (Basic.main dv).calls = [("./tests/3M_2015_10K.pdf", "./tests/10k.tmpl")] := by
  rcases h : dv.process_pdf_file "./tests/3M_2015_10K.pdf" "./tests/10k.tmpl"
    with e | r <;> simp [Basic.main, h]

/-- The `__main__` harness records exactly the hardcoded path pair. -/
lemma basicScript_calls (dv : DelverEnv) (argv : List String)
    (osEnv : String → Option String) :
    (Basic.basicScript dv argv osEnv).calls =
      [("./tests/3M_2015_10K.pdf", "./tests/10k.tmpl")] := by
  rcases h : (Basic.main dv).ret with e | r <;>
    simp [Basic.basicScript, h, main_calls]

/-! ### Claim theorems -/

/-- Claim C1, counterexample: the claim says no conditional affects which
pages are iterated, but src/hello.py line 18 selects the page range with the
conditional `range(len(doc)) if pages is None else range(pages)`: on the same
two-page document, `pages = None` iterates two pages while `pages = 1`
iterates one, and the printed traces differ accordingly. -/
theorem C1_page_range_conditional_cex :
    myRange docA none ≠ myRange docA (some 1) ∧
    (extract_text_with_bounding_boxes fzA "./tests/3M_2015_10K.pdf" none).trace ≠
      (extract_text_with_bounding_boxes fzA "./tests/3M_2015_10K.pdf"
        (some 1)).trace := by
  decide

/-- Claim C1, amended: `extract_text_with_bounding_boxes` is a straight-line
iteration over the external library's structures that prints each span, with
no error handling; its single conditional is the selection of the iterated
page range — `range(len(doc))` when `pages` is `None`, `range(pages)`
otherwise — and when every selected index is in range the whole behaviour is
exactly the in-order concatenation of the per-page span prints followed by a
normal `None` return with the document closed. -/
theorem C1_straight_line_iteration :
    (∀ doc : Doc, myRange doc none = List.range doc.pages.length) ∧
    (∀ (doc : Doc) (p : Int), myRange doc (some p) = List.range p.toNat) ∧
    (∀ (fz : FitzEnv) (path : String) (pages : Option Int) (doc : Doc),
      fz.openPdf path = Except.ok doc →
      (∀ i ∈ myRange doc pages, i < doc.pages.length) →
      extract_text_with_bounding_boxes fz path pages =
        { trace := (myRange doc pages).flatMap (pageEvents doc),
          opens := [path], closedDoc := true,
          outcome := Except.ok PyValue.pyNone }) :=
  ⟨fun _ => rfl, fun _ _ => rfl, fun fz path pages doc ho hv =>
    extract_of_valid fz path pages doc ho hv⟩

/-- Witness for the amended claim C1 at a concrete environment and document. -/
theorem C1_straight_line_iteration_witness :
    extract_text_with_bounding_boxes fzA "./tests/3M_2015_10K.pdf" (some 1) =
      { trace := (myRange docA (some 1)).flatMap (pageEvents docA),
        opens := ["./tests/3M_2015_10K.pdf"], closedDoc := true,
        outcome := Except.ok PyValue.pyNone } :=
  C1_straight_line_iteration.2.2 fzA "./tests/3M_2015_10K.pdf" (some 1) docA
    (by decide) (by decide)

/-- Claim C2: failures raised by any external library call — opening the PDF,
extracting text during the page loop (`doc[page_num]`), or `process_pdf_file`
in `main` — are not caught, classified, or specially reported by either
script: the same exception escapes `extract_text_with_bounding_boxes` / `main`
unchanged and terminates the script, with nothing printed beyond what already
happened (for a mid-loop failure, the spans printed before the raise; for
`basic.py`, only the profiler-enable step before `main`; the top-level `print`
of `hello.py` never runs). -/
theorem C2_uncaught_failures :
    (∀ (fz : FitzEnv) (path : String) (pages : Option Int) (e : PyError),
      fz.openPdf path = Except.error e →
      extract_text_with_bounding_boxes fz path pages =
        { trace := [], opens := [path], closedDoc := false,
          outcome := Except.error e }) ∧
    (∀ (fz : FitzEnv) (path : String) (pages : Option Int) (doc : Doc)
      (e : PyError),
      fz.openPdf path = Except.ok doc →
      (pageLoop doc (myRange doc pages)).2 = Except.error e →
      (extract_text_with_bounding_boxes fz path pages).outcome =
        Except.error e ∧
      (extract_text_with_bounding_boxes fz path pages).closedDoc = false ∧
      (extract_text_with_bounding_boxes fz path pages).trace =
        (pageLoop doc (myRange doc pages)).1) ∧
    (∀ (fz : FitzEnv) (argv : List String) (osEnv : String → Option String)
      (e : PyError),
      (extract_text_with_bounding_boxes fz "./tests/3M_2015_10K.pdf"
        (some 1)).outcome = Except.error e →
      helloScript fz argv osEnv =
        extract_text_with_bounding_boxes fz "./tests/3M_2015_10K.pdf" (some 1)) ∧
    (∀ (fz : FitzEnv) (argv : List String) (osEnv : String → Option String)
      (e : PyError),
      fz.openPdf "./tests/3M_2015_10K.pdf" = Except.error e →
      helloScript fz argv osEnv =
        { trace := [], opens := ["./tests/3M_2015_10K.pdf"], closedDoc := false,
          outcome := Except.error e }) ∧
    (∀ (dv : DelverEnv) (argv : List String) (osEnv : String → Option String)
      (e : PyError),
      dv.process_pdf_file "./tests/3M_2015_10K.pdf" "./tests/10k.tmpl" =
        Except.error e →
      (Basic.main dv).ret = Except.error e ∧
      Basic.basicScript dv argv osEnv =
        { trace := [Event.enableProfiler],
          calls := [("./tests/3M_2015_10K.pdf", "./tests/10k.tmpl")],
          outcome := Except.error e }) := by
  refine ⟨fun fz path pages e h => extract_of_open_err fz path pages e h,
    fun fz path pages doc e ho hloop => ?_,
    fun fz argv osEnv e h => ?_,
    fun fz argv osEnv e h => ?_, fun dv argv osEnv e h => ?_⟩
  · rcases hpl : pageLoop doc (myRange doc pages) with ⟨evs, out⟩
    rw [hpl] at hloop
    simp only at hloop
    subst hloop
    refine ⟨?_, ?_, ?_⟩ <;> simp [extract_text_with_bounding_boxes, ho, hpl]
  · simp [helloScript, h]
  · simp [helloScript, extract_of_open_err fz "./tests/3M_2015_10K.pdf" (some 1) e h]
  · exact ⟨by simp [Basic.main, h], by simp [Basic.basicScript, Basic.main, h]⟩

/-- Witness for claim C2: concrete failures escape both scripts — a missing
file at `fitz.open`, a mid-loop `IndexError` when the hardcoded `pages = 1`
call meets a successfully opened zero-page document (the exception skips both
`doc.close()` and the top-level `print`), and a missing file inside
`process_pdf_file`. -/
theorem C2_uncaught_failures_witness :
    extract_text_with_bounding_boxes fzFail "missing.pdf" none =
      { trace := [], opens := ["missing.pdf"], closedDoc := false,
        outcome := Except.error (PyError.fileNotFound "missing.pdf") } ∧
    (extract_text_with_bounding_boxes fzEmpty "./tests/3M_2015_10K.pdf"
        (some 1)).outcome = Except.error PyError.indexError ∧
    (extract_text_with_bounding_boxes fzEmpty "./tests/3M_2015_10K.pdf"
        (some 1)).closedDoc = false ∧
    helloScript fzEmpty [] (fun _ => none) =
      extract_text_with_bounding_boxes fzEmpty "./tests/3M_2015_10K.pdf"
        (some 1) ∧
    (Basic.main dvFail).ret =
      Except.error (PyError.fileNotFound "./tests/3M_2015_10K.pdf") ∧
    Basic.basicScript dvFail [] (fun _ => none) =
      { trace := [Event.enableProfiler],
        calls := [("./tests/3M_2015_10K.pdf", "./tests/10k.tmpl")],
        outcome := Except.error (PyError.fileNotFound "./tests/3M_2015_10K.pdf") } :=
  ⟨C2_uncaught_failures.1 fzFail "missing.pdf" none
      (PyError.fileNotFound "missing.pdf") rfl,
   (C2_uncaught_failures.2.1 fzEmpty "./tests/3M_2015_10K.pdf" (some 1) docEmpty
      PyError.indexError (by decide) (by decide)).1,
   (C2_uncaught_failures.2.1 fzEmpty "./tests/3M_2015_10K.pdf" (some 1) docEmpty
      PyError.indexError (by decide) (by decide)).2.1,
   C2_uncaught_failures.2.2.1 fzEmpty [] (fun _ => none)
      PyError.indexError (by decide),
   (C2_uncaught_failures.2.2.2.2 dvFail [] (fun _ => none)
      (PyError.fileNotFound "./tests/3M_2015_10K.pdf") rfl).1,
   (C2_uncaught_failures.2.2.2.2 dvFail [] (fun _ => none)
      (PyError.fileNotFound "./tests/3M_2015_10K.pdf") rfl).2⟩

/-- Claim C3: for every successfully opened document, with `pages = None` or
an integer `pages` not exceeding the page count, the call terminates normally
(returning `None`), every printed line is a (text, bounding-box) span pair,
and `doc.close()` is executed after the iteration. -/
theorem C3_valid_pdf_terminates_and_closes :
    ∀ (fz : FitzEnv) (path : String) (pages : Option Int) (doc : Doc),
      fz.openPdf path = Except.ok doc →
      (pages = none ∨ ∃ p : Int, pages = some p ∧ p ≤ (doc.pages.length : Int)) →
      (extract_text_with_bounding_boxes fz path pages).outcome =
        Except.ok PyValue.pyNone ∧
      (extract_text_with_bounding_boxes fz path pages).closedDoc = true ∧
      (extract_text_with_bounding_boxes fz path pages).trace =
        (myRange doc pages).flatMap (pageEvents doc) ∧
      ∀ e ∈ (extract_text_with_bounding_boxes fz path pages).trace,
        ∃ s bb, e = Event.printSpan s bb := by
  intro fz path pages doc ho hp
  have hvalid : ∀ i ∈ myRange doc pages, i < doc.pages.length := by
    rcases hp with rfl | ⟨p, rfl, hle⟩
    · intro i hi
      simp only [myRange, List.mem_range] at hi
      exact hi
    · intro i hi
      simp only [myRange, List.mem_range] at hi
      have hpn : p.toNat ≤ doc.pages.length := Int.toNat_le.mpr hle
      omega
  have he := extract_of_valid fz path pages doc ho hvalid
  refine ⟨by rw [he], by rw [he], by rw [he], ?_⟩
  rw [he]
  intro e hmem
  simp only [List.mem_flatMap] at hmem
  obtain ⟨i, -, hei⟩ := hmem
  exact pageEvents_mem doc i e hei

/-- Witness for claim C3 at a concrete environment and document. -/
theorem C3_valid_pdf_terminates_and_closes_witness :
    (extract_text_with_bounding_boxes fzA "./tests/3M_2015_10K.pdf" none).outcome =
      Except.ok PyValue.pyNone ∧
    (extract_text_with_bounding_boxes fzA "./tests/3M_2015_10K.pdf" none).closedDoc =
      true :=
  ⟨(C3_valid_pdf_terminates_and_closes fzA "./tests/3M_2015_10K.pdf" none docA
      (by decide) (Or.inl rfl)).1,
   (C3_valid_pdf_terminates_and_closes fzA "./tests/3M_2015_10K.pdf" none docA
      (by decide) (Or.inl rfl)).2.1⟩

/-- Claim C4: the paths handed to the external calls are exactly the
hardcoded constants — `("./tests/3M_2015_10K.pdf", "./tests/10k.tmpl")` for
the templated path and `"./tests/3M_2015_10K.pdf"` for the manual path — and
no command-line arguments or environment variables can change either run. -/
theorem C4_hardcoded_paths :
    ∀ (dv : DelverEnv) (fz : FitzEnv) (argv argv2 : List String)
      (osEnv osEnv2 : String → Option String),
      (Basic.basicScript dv argv osEnv).calls =
        [("./tests/3M_2015_10K.pdf", "./tests/10k.tmpl")] ∧
      (helloScript fz argv osEnv).opens = ["./tests/3M_2015_10K.pdf"] ∧
      Basic.basicScript dv argv osEnv = Basic.basicScript dv argv2 osEnv2 ∧
      helloScript fz argv osEnv = helloScript fz argv2 osEnv2 := by
  intro dv fz argv argv2 osEnv osEnv2
  refine ⟨basicScript_calls dv argv osEnv, ?_, rfl, rfl⟩
  rcases hoc : (extract_text_with_bounding_boxes fz "./tests/3M_2015_10K.pdf"
      (some 1)).outcome with e | v <;>
    simp [helloScript, hoc, extract_opens_eq]

/-- Claim C5: when src/examples/basic.py runs as `__main__` and `main`
returns normally, the harness enables the profiler before `main`, disables it
after, prints the statistics text produced by sorting on cumulative time and
taking the top 20 entries, and dumps the binary statistics to the file named
`profile_results.prof`. -/
theorem C5_profiling_harness :
    ∀ (dv : DelverEnv) (argv : List String) (osEnv : String → Option String)
      (r : String),
      dv.process_pdf_file "./tests/3M_2015_10K.pdf" "./tests/10k.tmpl" =
        Except.ok r →
      Basic.basicScript dv argv osEnv =
        { trace := [Event.enableProfiler, Event.printStr r, Event.disableProfiler,
            Event.printStr ("\n" ++ Basic.sepLine), Event.printStr "PROFILING RESULTS",
            Event.printStr Basic.sepLine,
            Event.printStr (dv.statsText "cumulative" 20),
            Event.dumpStatsFile "profile_results.prof",
            Event.printStr
              "\nDetailed profiling data saved to \x27profile_results.prof\x27",
            Event.printStr
              "You can analyze it with: python -m pstats profile_results.prof"],
          calls := [("./tests/3M_2015_10K.pdf", "./tests/10k.tmpl")],
          outcome := Except.ok () } := by
  intro dv argv osEnv r h
  simp [Basic.basicScript, Basic.main, h]

/-- Witness for claim C5 at a concrete environment. -/
theorem C5_profiling_harness_witness :
    Basic.basicScript dvA [] (fun _ => none) =
      { trace := [Event.enableProfiler, Event.printStr "RESULT",
          Event.disableProfiler,
          Event.printStr ("\n" ++ Basic.sepLine), Event.printStr "PROFILING RESULTS",
          Event.printStr Basic.sepLine,
          Event.printStr (dvA.statsText "cumulative" 20),
          Event.dumpStatsFile "profile_results.prof",
          Event.printStr
            "\nDetailed profiling data saved to \x27profile_results.prof\x27",
          Event.printStr
            "You can analyze it with: python -m pstats profile_results.prof"],
        calls := [("./tests/3M_2015_10K.pdf", "./tests/10k.tmpl")],
        outcome := Except.ok () } :=
  C5_profiling_harness dvA [] (fun _ => none) "RESULT" rfl

/-- Claim C6: the profiler only measures and does not influence behaviour —
the profiled invocation of `main` (src/examples/basic.py lines 21-23) returns
the same value, records the same external calls, and, once the profiler's own
measurement events are erased, prints the same output as the bare `main`. -/
theorem C6_profiler_transparent :
    ∀ dv : DelverEnv,
      (Basic.profiledMain dv).ret = (Basic.main dv).ret ∧
      (Basic.profiledMain dv).calls = (Basic.main dv).calls ∧
      Basic.eraseProfilerEvents (Basic.profiledMain dv).trace = (Basic.main dv).trace := by
  intro dv
  rcases h : dv.process_pdf_file "./tests/3M_2015_10K.pdf" "./tests/10k.tmpl"
    with e | r <;>
    simp [Basic.profiledMain, Basic.main, h, Basic.eraseProfilerEvents, Basic.isProfilerEvent]

/-- Claim C7: the nested block/line/span structure is consumed read-only: the
instrumented traversal, in which every loop hands back the structure it
visited, returns the text dictionary unchanged while printing exactly the span
events, and each page iteration of the extraction uses exactly that
traversal's output. -/
theorem C7_read_only_consumption :
    (∀ t : TextDict, processTextDictRW t = (textDictEvents t, t)) ∧
    (∀ (doc : Doc) (i : Nat),
      pageEvents doc i =
        ((doc.pages[i]?).map fun pd => (processTextDictRW pd.textDict).1).getD []) := by
  have hmain : ∀ t : TextDict, processTextDictRW t = (textDictEvents t, t) := by
    intro t
    rcases t with ⟨blocks⟩
    simp [processTextDictRW, textDictEvents, (mapRW_blocks blocks).1,
      (mapRW_blocks blocks).2]
  refine ⟨hmain, ?_⟩
  intro doc i
  rcases hpd : doc.pages[i]? with _ | pd <;>
    simp [pageEvents, hpd, hmain, PageData.get_text]

/-- Claim C8: there is no try/finally in `extract_text_with_bounding_boxes`,
so when a failure is raised during the iteration after the document was
opened, `doc.close()` never executes and the document stays unreleased. -/
theorem C8_no_close_on_error :
    ∀ (fz : FitzEnv) (path : String) (pages : Option Int) (doc : Doc)
      (e : PyError),
      fz.openPdf path = Except.ok doc →
      (extract_text_with_bounding_boxes fz path pages).outcome = Except.error e →
      (extract_text_with_bounding_boxes fz path pages).closedDoc = false := by
  intro fz path pages doc e ho hout
  cases hc : (extract_text_with_bounding_boxes fz path pages).closedDoc
  · rfl
  · rw [(extract_closed_iff_ok fz path pages).mp hc] at hout
    exact Except.noConfusion hout

/-- Witness for claim C8: asking for five pages of a two-page document raises
`IndexError` mid-loop and the document is left open. -/
theorem C8_no_close_on_error_witness :
    (extract_text_with_bounding_boxes fzA "./tests/3M_2015_10K.pdf"
      (some 5)).closedDoc = false :=
  C8_no_close_on_error fzA "./tests/3M_2015_10K.pdf" (some 5) docA
    PyError.indexError (by decide) (by decide)

/-- Claim C9: an integer `pages` argument is iterated as `range(pages)` with
no clamping to the document length, so the run stays in range and finishes
normally exactly when `pages` is at most the page count, and for larger
`pages` the page lookup raises `IndexError`. -/
theorem C9_no_page_clamping :
    ∀ (fz : FitzEnv) (path : String) (p : Int) (doc : Doc),
      fz.openPdf path = Except.ok doc →
      myRange doc (some p) = List.range p.toNat ∧
      ((extract_text_with_bounding_boxes fz path (some p)).outcome =
          Except.ok PyValue.pyNone ↔ p ≤ (doc.pages.length : Int)) ∧
      ((doc.pages.length : Int) < p →
        (extract_text_with_bounding_boxes fz path (some p)).outcome =
          Except.error PyError.indexError) := by
  intro fz path p doc ho
  have validR : (∀ i ∈ myRange doc (some p), i < doc.pages.length) ↔
      p ≤ (doc.pages.length : Int) := by
    rw [show myRange doc (some p) = List.range p.toNat from rfl,
      range_all_lt_iff, Int.toNat_le]
  refine ⟨rfl, ⟨?_, ?_⟩, ?_⟩
  · intro hok
    by_contra hgt
    have hbad : ¬ ∀ i ∈ myRange doc (some p), i < doc.pages.length :=
      fun hall => hgt (validR.mp hall)
    rw [(extract_of_invalid fz path (some p) doc ho hbad).1] at hok
    exact Except.noConfusion hok
  · intro hle
    rw [extract_of_valid fz path (some p) doc ho (validR.mpr hle)]
  · intro hlt
    have hbad : ¬ ∀ i ∈ myRange doc (some p), i < doc.pages.length :=
      fun hall => absurd (validR.mp hall) (by omega)
    exact (extract_of_invalid fz path (some p) doc ho hbad).1

/-- Witness for claim C9 at a concrete document: five requested pages of a
two-page document. -/
theorem C9_no_page_clamping_witness :
    myRange docA (some 5) = List.range (5 : Int).toNat ∧
    ((extract_text_with_bounding_boxes fzA "./tests/3M_2015_10K.pdf"
        (some 5)).outcome = Except.ok PyValue.pyNone ↔
      (5 : Int) ≤ (docA.pages.length : Int)) :=
  ⟨(C9_no_page_clamping fzA "./tests/3M_2015_10K.pdf" 5 docA (by decide)).1,
   (C9_no_page_clamping fzA "./tests/3M_2015_10K.pdf" 5 docA (by decide)).2.1⟩

/-- Claim C10: whenever `extract_text_with_bounding_boxes` terminates
normally it returns `None`, so the top-level
`print(extract_text_with_bounding_boxes(...))` of src/hello.py prints `None`
after the per-span lines. -/
theorem C10_returns_none :
    (∀ (fz : FitzEnv) (path : String) (pages : Option Int) (v : PyValue),
      (extract_text_with_bounding_boxes fz path pages).outcome = Except.ok v →
      v = PyValue.pyNone) ∧
    (∀ (fz : FitzEnv) (argv : List String) (osEnv : String → Option String)
      (v : PyValue),
      (extract_text_with_bounding_boxes fz "./tests/3M_2015_10K.pdf"
        (some 1)).outcome = Except.ok v →
      (helloScript fz argv osEnv).trace =
        (extract_text_with_bounding_boxes fz "./tests/3M_2015_10K.pdf"
          (some 1)).trace ++ [Event.printStr "None"]) :=
  ⟨extract_ok_val, helloScript_trace_of_ok⟩

/-- Witness for claim C10 at a concrete environment. -/
theorem C10_returns_none_witness :
    (helloScript fzA [] (fun _ => none)).trace =
      (extract_text_with_bounding_boxes fzA "./tests/3M_2015_10K.pdf"
        (some 1)).trace ++ [Event.printStr "None"] :=
  C10_returns_none.2 fzA [] (fun _ => none) PyValue.pyNone (by decide)
